import Mathlib

set_option maxRecDepth 100000
set_option linter.unusedVariables false

/-!
# Verification of the v3 headless scanner decision pipeline

A shallow embedding in Lean 4 of `src/main.py`: the indicator library
(`ema`, `atr`, `vwap`), the regime classifier (`regime_ok`), the signal
detectors (`sig_flow`, `sig_boyh`), the risk sizer (`stop_distance`,
`shares_for`), the decision assembler (`decide_trade`) and the scan loop
(`main`).

Modelling conventions:
* Prices and volumes are exact rationals (`ℚ`).  Python float values that
  may be NaN (an indicator over a window that is not yet full, VWAP with a
  zero cumulative volume) are modelled as `Option ℚ`, with `none` playing
  the role of NaN; a comparison against NaN is `false` in Python, and the
  embedding matches on `none` accordingly.
* A pandas DataFrame that may be `None` is modelled as `Option (List Bar)`.
* External data (the 5-minute download, the daily download) is passed to
  the embedded functions as an argument instead of being fetched inside.
* `round(x, n)` is modelled by `round4`/`round2` (scale, round half to
  even, unscale), the rounding mode Python uses on exact values.
* Exceptions in the scan loop are modelled with `Except`: a per-ticker
  computation either returns a value or raises, and the loop body's
  `try/except` is a `match` on that result.
-/

/-- One OHLCV bar (a row of the DataFrame), timestamp omitted: no embedded
function reads it. -/
structure Bar where
  open_ : ℚ
  high : ℚ
  low : ℚ
  close : ℚ
  volume : ℚ
deriving DecidableEq, Repr

/-- Process configuration, read once at startup in the source
(`EQUITY`, `RISK_PER_TRADE`, `ATR_MULT`, `VOL_MULT`, `CONSENSUS_MIN`). -/
structure Config where
  equity : ℚ
  riskPerTrade : ℚ
  atrMult : ℚ
  volMult : ℚ
  consensusMin : ℤ
deriving DecidableEq, Repr

/-- The default configuration values from the source's `os.getenv` defaults. -/
def defaultCfg : Config :=
  { equity := 10000, riskPerTrade := 1/100, atrMult := 3/2, volMult := 3,
    consensusMin := 2 }

/-- The fixed instrument universe `TICKERS`. -/
def TICKERS : List String :=
  ["SPY", "QQQ", "AAPL", "NVDA", "AMZN", "C", "JPM", "BTC-USD", "ETH-USD",
   "PLTR", "SOFI", "AMC", "XLE", "GLD"]

/-- `df["Close"].iloc[-1]`: the latest close.  Total with default `0`; every
use in the source is guarded by a non-emptiness check. -/
def lastClose (bars : List Bar) : ℚ :=
  ((bars.map (·.close)).getLast?).getD 0

/-- `df["Volume"].iloc[-1]`: the latest volume (same guard convention). -/
def lastVolume (bars : List Bar) : ℚ :=
  ((bars.map (·.volume)).getLast?).getD 0

/-- `s.ewm(span=n, adjust=False).mean().iloc[-1]`: the last value of the
exponential moving average with α = 2/(span+1), seeded at the first
observation (`y₀ = x₀`, `yᵢ = (1-α)·yᵢ₋₁ + α·xᵢ`).  `none` on an empty
series. -/
def emaLast (span : ℕ) (s : List ℚ) : Option ℚ :=
  let a : ℚ := 2 / (span + 1)
  s.foldl (fun acc x =>
    match acc with
    | none => some x
    | some y => some ((1 - a) * y + a * x)) none

/-- True range of a bar `b` given the previous bar `prev`:
`max(high-low, |high-prevClose|, |low-prevClose|)`. -/
def trueRange (prev b : Bar) : ℚ :=
  max (b.high - b.low) (max |b.high - prev.close| |b.low - prev.close|)

/-- Tail of the true-range series, given the previous bar. -/
def trAux : Bar → List Bar → List ℚ
  | _, [] => []
  | prev, b :: bs => trueRange prev b :: trAux b bs

/-- The true-range series of `atr`: for the first bar `c.shift()` is NaN, so
pandas' row-wise `max` keeps only `high-low`; afterwards the full
`max(h-l, |h-prevC|, |l-prevC|)`. -/
def trList : List Bar → List ℚ
  | [] => []
  | b :: bs => (b.high - b.low) :: trAux b bs

/-- `s.rolling(n).mean().iloc[-1]`: mean of the last `n` entries, `none`
(NaN) when the window is not yet full (or `n = 0`, which pandas rejects). -/
def rollMeanLast (n : ℕ) (s : List ℚ) : Option ℚ :=
  if 1 ≤ n ∧ n ≤ s.length then some (((s.drop (s.length - n)).sum) / n)
  else none

/-- `atr(df, n).iloc[-1]`: rolling mean of true range over `n` bars, at the
latest bar. -/
def atrLast (bars : List Bar) (n : ℕ) : Option ℚ :=
  rollMeanLast n (trList bars)

/-- `vwap(df).iloc[-1]`: cumulative (close·volume) over cumulative volume at
the last row; a zero cumulative volume was replaced by NaN (`none`). -/
def vwapLast (bars : List Bar) : Option ℚ :=
  match bars with
  | [] => none
  | _ =>
    let vv := (bars.map (·.volume)).sum
    if vv = 0 then none
    else some ((bars.map (fun b => b.close * b.volume)).sum / vv)

/-- The clamped denominator of the regime volatility ratio:
`max(1e-9, last)`. -/
def regimeDenom (bars : List Bar) : ℚ :=
  max (1/1000000000) (lastClose bars)

/-- `vol_pct` of `regime_ok`: latest ATR(14) over the clamped latest close
(`0` stands for the unreachable NaN ATR: `regime_ok` only divides after
seeing at least 200 bars). -/
def volPct (bars : List Bar) : ℚ :=
  ((atrLast bars 14).getD 0) / regimeDenom bars

/-- `regime_ok(df)`: at least 200 bars, latest close above EMA-200, and
ATR(14)/close inside the volatility band `0.005 ≤ · ≤ 0.08`.  A NaN
indicator value (impossible under the length guard) compares as `false`,
as in Python. -/
def regimeOk (df : Option (List Bar)) : Bool :=
  match df with
  | none => false
  | some bars =>
    if bars.length < 200 then false
    else
      let emaOk :=
        match emaLast 200 (bars.map (·.close)) with
        | none => false
        | some e => decide (e < lastClose bars)
      let bandOk :=
        match atrLast bars 14 with
        | none => false
        | some _ => decide ((5/1000 : ℚ) ≤ volPct bars ∧ volPct bars ≤ 8/100)
      emaOk && bandOk

/-- `sig_flow(df)`: at least 21 bars, latest volume at least
`VOL_MULT` times the 20-bar rolling mean of volume, and latest close
strictly above the latest VWAP (a NaN VWAP compares as `false`). -/
def sigFlow (cfg : Config) (df : Option (List Bar)) : Bool :=
  match df with
  | none => false
  | some bars =>
    if bars.length < 21 then false
    else
      let volOk :=
        match rollMeanLast 20 (bars.map (·.volume)) with
        | none => false
        | some m => decide (cfg.volMult * m ≤ lastVolume bars)
      let vwapOk :=
        match vwapLast bars with
        | none => false
        | some w => decide (w < lastClose bars)
      volOk && vwapOk

/-- `d["High"].iloc[-2]`: the high of the prior completed coarse bar (total
with default `0`; guarded by `len(d) ≥ 2` at the call site). -/
def priorHigh (d : List Bar) : ℚ :=
  ((d[d.length - 2]?).map (·.high)).getD 0

/-- `sig_boyh(ticker, df)` with the daily download passed in: `false` when
the auxiliary sequence is missing, empty or shorter than 2; otherwise true
iff the latest fine-grained close strictly exceeds yesterday's high. -/
def sigBoyh (daily : Option (List Bar)) (df : List Bar) : Bool :=
  match daily with
  | none => false
  | some d =>
    if d.length < 2 then false
    else decide (priorHigh d < lastClose df)

/-- `stop_distance(df) = atr(df,14).iloc[-1] * ATR_MULT`; `none` is the NaN
of an unfilled ATR window. -/
def stopDistance (cfg : Config) (bars : List Bar) : Option ℚ :=
  (atrLast bars 14).map (· * cfg.atrMult)

/-- `shares_for(entry, stop_dist)`: `0` on a NaN or non-positive stop
distance, else `⌊(EQUITY·RISK_PER_TRADE) / max(0.01, stop_dist)⌋` (Python's
float floor-division followed by `int`).  `entry` is taken and ignored
exactly as in the source. -/
def sharesFor (cfg : Config) (entry : ℚ) (stopDist : Option ℚ) : ℤ :=
  match stopDist with
  | none => 0
  | some d =>
    if d ≤ 0 then 0
    else ⌊(cfg.equity * cfg.riskPerTrade) / max (1/100) d⌋

/-- Round half to even (banker's rounding), the tie-breaking rule of
Python's `round` on exact values. -/
def roundHalfEven (x : ℚ) : ℤ :=
  let n := ⌊x⌋
  let r := x - n
  if r < 1/2 then n
  else if (1/2 : ℚ) < r then n + 1
  else if n % 2 = 0 then n else n + 1

/-- `round(x, 4)`. -/
def round4 (x : ℚ) : ℚ := (roundHalfEven (x * 10000) : ℚ) / 10000

/-- `round(x, 2)`. -/
def round2 (x : ℚ) : ℚ := (roundHalfEven (x * 100) : ℚ) / 100

/-- The row `decide_trade` assembles: timestamp, evaluation date, ticker,
per-detector signal flags, entry, stop, stop distance, share count and
dollar risk budget. -/
structure DecisionRecord where
  timestamp : String
  date : String
  ticker : String
  signals : String
  entry : ℚ
  stop : ℚ
  stop_dist : ℚ
  shares : ℤ
  riskDollars : ℚ
deriving DecidableEq, Repr

/-- The `signals` field: `f"flow={int(f)},boyh={int(b)}"`. -/
def signalsString (f b : Bool) : String :=
  "flow=" ++ (if f then "1" else "0") ++ ",boyh=" ++ (if b then "1" else "0")

/-- `decide_trade(ticker)`, with the 5-minute download `dfi`, the daily
download used by `sig_boyh`, and the two clock reads passed in as
arguments.  Returns the decision record, or `none` at any early exit
(empty data, regime failure, insufficient consensus, sizing failure). -/
def decideTrade (cfg : Config) (ticker : String) (dfi : Option (List Bar))
    (daily : Option (List Bar)) (nowUtc etDate : String) :
    Option DecisionRecord :=
  match dfi with
  | none => none
  | some bars =>
    if bars.length = 0 then none
    else if ¬ regimeOk (some bars) then none
    else
      let f := sigFlow cfg (some bars)
      let b := sigBoyh daily bars
      if (if f then (1:ℤ) else 0) + (if b then 1 else 0) < cfg.consensusMin
      then none
      else
        let entry := lastClose bars
        let sd := stopDistance cfg bars
        let sh := sharesFor cfg entry sd
        if sh ≤ 0 ∨ sd = none then none
        else some
          { timestamp := nowUtc
            date := etDate
            ticker := ticker
            signals := signalsString f b
            entry := round4 entry
            stop := round4 (entry - sd.getD 0)
            stop_dist := round4 (sd.getD 0)
            shares := sh
            riskDollars := round2 (cfg.equity * cfg.riskPerTrade) }

/-- What the scan loop records for one ticker: a logged trade, a quiet
no-trade, or a caught exception printed as `ERR ticker msg`. -/
inductive TickerOutcome where
  | traded (t : String) (r : DecisionRecord)
  | noTrade (t : String)
  | errSkip (t : String) (msg : String)
deriving DecidableEq, Repr

/-- The body of `main`'s per-ticker loop.  `dt t` models `decide_trade(t)`
(it may raise: supplier failure, malformed data); `sink r` models
`log_row(r)` (it may raise: the CSV cannot be written).  Both calls happen
inside the same `try`, so either exception is caught by the
`except Exception` branch and becomes an `ERR` line. -/
def processTicker (dt : String → Except String (Option DecisionRecord))
    (sink : DecisionRecord → Except String Unit) (t : String) :
    TickerOutcome :=
  match dt t with
  | .error e => .errSkip t e
  | .ok none => .noTrade t
  | .ok (some r) =>
    match sink r with
    | .error e => .errSkip t e
    | .ok _ => .traded t r

/-- `main`'s scan over the universe (after the market-hours gate): every
ticker is processed, and a failure of one never aborts the rest — the
function is total and returns one outcome per ticker, in order. -/
def mainScan (dt : String → Except String (Option DecisionRecord))
    (sink : DecisionRecord → Except String Unit) (ts : List String) :
    List TickerOutcome :=
  ts.map (processTicker dt sink)

/-- Number of `hits` counted by `main`: tickers whose row was produced and
logged without the sink raising. -/
def scanHits (dt : String → Except String (Option DecisionRecord))
    (sink : DecisionRecord → Except String Unit) (ts : List String) : ℕ :=
  (mainScan dt sink ts).countP fun o =>
    match o with
    | .traded _ _ => true
    | _ => false

/-! ## Helper lemmas -/

theorem trAux_length (prev : Bar) (bs : List Bar) :
    (trAux prev bs).length = bs.length := by
  induction bs generalizing prev with
  | nil => rfl
  | cons b bs ih => simp [trAux, ih]

theorem trList_length (bars : List Bar) :
    (trList bars).length = bars.length := by
  cases bars with
  | nil => rfl
  | cons b bs => simp [trList, trAux_length]

theorem rollMeanLast_eq {n : ℕ} {s : List ℚ} (h1 : 1 ≤ n) (h2 : n ≤ s.length) :
    rollMeanLast n s = some ((s.drop (s.length - n)).sum / n) :=
  if_pos ⟨h1, h2⟩

theorem atrLast_eq {bars : List Bar} {n : ℕ} (h1 : 1 ≤ n)
    (h2 : n ≤ bars.length) :
    atrLast bars n
      = some (((trList bars).drop (bars.length - n)).sum / n) := by
  unfold atrLast
  rw [rollMeanLast_eq h1 (by rw [trList_length]; exact h2), trList_length]

/-! ## C5: the risk-sizer formula -/

/-- C5: for every positive stop distance the position size is
`⌊(equity · risk_fraction) / max(stop_distance, 0.01)⌋`, non-negative as
soon as equity and risk fraction are (the configuration surface requires
equity ≥ 0 and risk fraction in (0,1]); with the default configuration the
risk budget is `100` and a stop distance of `2` yields `50` shares. -/
theorem c5_shares_formula (cfg : Config) (entry sd : ℚ) (hsd : 0 < sd) :
    sharesFor cfg entry (some sd)
        = ⌊cfg.equity * cfg.riskPerTrade / max (1/100) sd⌋ ∧
    (0 ≤ cfg.equity → 0 ≤ cfg.riskPerTrade →
      0 ≤ sharesFor cfg entry (some sd)) ∧
    defaultCfg.equity * defaultCfg.riskPerTrade = 100 ∧
    sharesFor defaultCfg entry (some 2) = 50 := by
  have hfloor : sharesFor cfg entry (some sd)
      = ⌊cfg.equity * cfg.riskPerTrade / max (1/100) sd⌋ := by
    simp only [sharesFor]
    rw [if_neg (not_le.mpr hsd)]
  refine ⟨hfloor, ?_, by norm_num [defaultCfg], ?_⟩
  · intro he hr
    rw [hfloor]
    have hden : (0:ℚ) < max (1/100) sd :=
      lt_of_lt_of_le (by norm_num) (le_max_left _ _)
    exact Int.floor_nonneg.mpr (div_nonneg (mul_nonneg he hr) hden.le)
  · simp only [sharesFor]
    rw [if_neg (by norm_num : ¬(2:ℚ) ≤ 0),
        max_eq_right (by norm_num : (1/100 : ℚ) ≤ 2)]
    norm_num [defaultCfg]

/-- C5 witness: the theorem applied at `sd = 2` under the default
configuration. -/
theorem c5_shares_formula_witness :
    sharesFor defaultCfg 10 (some 2) = 50 ∧
    (0:ℤ) ≤ sharesFor defaultCfg 10 (some 2) := by
  have h := c5_shares_formula defaultCfg 10 2 (by norm_num)
  exact ⟨h.2.2.2, h.2.2.2 ▸ by norm_num⟩

/-! ## C8: short history means regime false -/

/-- C8: a missing sequence or any sequence shorter than 200 bars is
classified not tradeable — a normal negative outcome, not an error. -/
theorem c8_short_regime_false (df : Option (List Bar))
    (h : df = none ∨ ∃ bars, df = some bars ∧ bars.length < 200) :
    regimeOk df = false := by
  rcases h with h | ⟨bars, rfl, hlen⟩
  · rw [h]; rfl
  · simp only [regimeOk]
    rw [if_pos hlen]

/-- C8 witness: a one-bar sequence (and, en passant, the empty one). -/
theorem c8_short_regime_false_witness :
    regimeOk (some [{ open_ := 1, high := 1, low := 1, close := 1,
                      volume := 1 }]) = false :=
  c8_short_regime_false _ (Or.inr ⟨_, rfl, by norm_num⟩)

/-! ## C7: the breakout detector on missing or short auxiliary data -/

/-- C7: the breakout-over-yesterday's-high detector is `false` (totally,
never an exception) when the daily sequence is missing or shorter than 2;
with at least 2 daily bars and a non-empty fine sequence it is true iff
the latest fine close strictly exceeds the prior completed daily bar's
high. -/
theorem c7_boyh (daily : Option (List Bar)) (df : List Bar) :
    ((daily = none ∨ ∃ d, daily = some d ∧ d.length < 2) →
        sigBoyh daily df = false) ∧
    (∀ d, daily = some d → 2 ≤ d.length → df ≠ [] →
        (sigBoyh daily df = true ↔ priorHigh d < lastClose df)) := by
  constructor
  · rintro (rfl | ⟨d, rfl, hd⟩)
    · rfl
    · simp only [sigBoyh]
      rw [if_pos hd]
  · rintro d rfl hd hdf
    simp only [sigBoyh]
    rw [if_neg (not_lt.mpr hd)]
    exact decide_eq_true_iff

/-- C7 witness: the theorem applied to a missing daily sequence, a
one-entry daily sequence, and a two-entry daily sequence. -/
theorem c7_boyh_witness :
    sigBoyh none [{ open_ := 1, high := 1, low := 1, close := 1,
                    volume := 1 }] = false ∧
    sigBoyh (some [{ open_ := 1, high := 1, low := 1, close := 1,
                     volume := 1 }])
        [{ open_ := 1, high := 1, low := 1, close := 1, volume := 1 }]
      = false ∧
    sigBoyh (some [{ open_ := 1, high := 3, low := 1, close := 2,
                     volume := 1 },
                   { open_ := 2, high := 5, low := 2, close := 4,
                     volume := 1 }])
        [{ open_ := 1, high := 4, low := 1, close := 4, volume := 1 }]
      = true := by
  refine ⟨(c7_boyh none _).1 (Or.inl rfl),
          (c7_boyh _ _).1 (Or.inr ⟨_, rfl, by norm_num⟩), ?_⟩
  refine ((c7_boyh _ _).2 _ rfl (by norm_num) (by simp)).mpr ?_
  norm_num [priorHigh, lastClose]

/-! ## C4: sizing failure suppresses the candidate -/

/-- C4: whenever the stop distance is NaN or non-positive, or the computed
share count is non-positive, `decide_trade` yields no decision record. -/
theorem c4_sizing_suppresses (cfg : Config) (t nu da : String)
    (bars : List Bar) (daily : Option (List Bar))
    (h : stopDistance cfg bars = none ∨
         (∃ d, stopDistance cfg bars = some d ∧ d ≤ 0) ∨
         sharesFor cfg (lastClose bars) (stopDistance cfg bars) ≤ 0) :
    decideTrade cfg t (some bars) daily nu da = none := by
  have hsz : sharesFor cfg (lastClose bars) (stopDistance cfg bars) ≤ 0 ∨
      stopDistance cfg bars = none := by
    rcases h with h | ⟨d, hd, hd0⟩ | h
    · exact Or.inr h
    · left
      rw [hd]
      simp only [sharesFor]
      rw [if_pos hd0]
    · exact Or.inl h
  simp only [decideTrade]
  by_cases h0 : bars.length = 0
  · rw [if_pos h0]
  rw [if_neg h0]
  by_cases hr : ¬ regimeOk (some bars) = true
  · rw [if_pos hr]
  rw [if_neg hr]
  by_cases hc : (if sigFlow cfg (some bars) = true then (1:ℤ) else 0)
      + (if sigBoyh daily bars = true then (1:ℤ) else 0) < cfg.consensusMin
  · rw [if_pos hc]
  rw [if_neg hc]
  exact if_pos hsz

/-- A constant-price bar and a 200-bar constant sequence: its ATR is 0, so
its stop distance is 0 and sizing fails. -/
def constBar : Bar :=
  { open_ := 100, high := 100, low := 100, close := 100, volume := 5 }

def constBars : List Bar := List.replicate 200 constBar

/-- C4 witness: on the constant 200-bar sequence the stop distance is
`some 0 ≤ 0` and the decision is suppressed. -/
theorem c4_sizing_suppresses_witness :
    (∃ d, stopDistance defaultCfg constBars = some d ∧ d ≤ 0) ∧
    decideTrade defaultCfg "SPY" (some constBars) none "t" "d" = none := by
  have hsd : stopDistance defaultCfg constBars = some 0 := by
    with_unfolding_all rfl
  exact ⟨⟨0, hsd, le_refl 0⟩,
    c4_sizing_suppresses defaultCfg "SPY" "t" "d" constBars none
      (Or.inr (Or.inl ⟨0, hsd, le_refl 0⟩))⟩

/-! ## C6: the flow detector -/

/-- C6: with at least 21 bars the flow detector is true iff the latest
volume is at least `VOL_MULT` times the 20-bar rolling volume mean
(inclusive comparison) and the latest close strictly exceeds the latest
VWAP; with fewer bars it is false. -/
theorem c6_flow_iff (cfg : Config) (bars : List Bar) :
    (21 ≤ bars.length →
      (sigFlow cfg (some bars) = true ↔
        (cfg.volMult * ((rollMeanLast 20 (bars.map (·.volume))).getD 0)
            ≤ lastVolume bars ∧
         ∃ w, vwapLast bars = some w ∧ w < lastClose bars))) ∧
    (bars.length < 21 → sigFlow cfg (some bars) = false) := by
  constructor
  · intro hlen
    obtain ⟨m, hm⟩ : ∃ m, rollMeanLast 20 (bars.map (·.volume)) = some m :=
      ⟨_, rollMeanLast_eq (by norm_num) (by rw [List.length_map]; omega)⟩
    simp only [sigFlow]
    rw [if_neg (not_lt.mpr hlen), hm]
    cases hv : vwapLast bars with
    | none => simp
    | some w => simp [decide_eq_true_iff]
  · intro hlt
    simp only [sigFlow]
    rw [if_pos hlt]

/-- A 21-bar sequence for the flow detector: 20 quiet bars and a surge
bar whose volume is well above three times the rolling mean and whose
close sits above the running VWAP. -/
def flowBase : Bar :=
  { open_ := 100, high := 100, low := 100, close := 100, volume := 1000 }

def flowLast : Bar :=
  { open_ := 101, high := 101, low := 101, close := 101, volume := 10000 }

def flowBars : List Bar := List.replicate 20 flowBase ++ [flowLast]

/-- C6 witness: the iff applied on a concrete 21-bar surge sequence, and
the short-history branch applied on a 1-bar sequence. -/
theorem c6_flow_iff_witness :
    sigFlow defaultCfg (some flowBars) = true ∧
    sigFlow defaultCfg (some [flowBase]) = false := by
  have hlen : flowBars.length = 21 := by with_unfolding_all rfl
  have hm : rollMeanLast 20 (flowBars.map (·.volume)) = some 1450 := by
    with_unfolding_all rfl
  have hv : vwapLast flowBars = some (301/3) := by with_unfolding_all rfl
  have hV : lastVolume flowBars = 10000 := by with_unfolding_all rfl
  have hC : lastClose flowBars = 101 := by with_unfolding_all rfl
  constructor
  · refine ((c6_flow_iff defaultCfg flowBars).1 (by omega)).mpr ?_
    refine ⟨?_, 301/3, hv, ?_⟩
    · rw [hm, hV]
      norm_num [defaultCfg]
    · rw [hC]
      norm_num
  · exact (c6_flow_iff defaultCfg [flowBase]).2 (by norm_num)

/-! ## The regime classifier, unfolded -/

/-- `regime_ok` characterised: true iff there are at least 200 bars, the
latest close strictly exceeds the last EMA-200 value, and the volatility
fraction lies in the (two-sided closed) band. -/
theorem regimeOk_true_iff (bars : List Bar) :
    regimeOk (some bars) = true ↔
      200 ≤ bars.length ∧
      (∃ e, emaLast 200 (bars.map (·.close)) = some e ∧ e < lastClose bars) ∧
      (∃ a, atrLast bars 14 = some a ∧
        (5/1000:ℚ) ≤ volPct bars ∧ volPct bars ≤ 8/100) := by
  simp only [regimeOk]
  by_cases hl : bars.length < 200
  · rw [if_pos hl]
    constructor
    · intro h; cases h
    · rintro ⟨h200, -⟩; omega
  · rw [if_neg hl, Bool.and_eq_true]
    constructor
    · rintro ⟨he, ha⟩
      refine ⟨by omega, ?_, ?_⟩
      · cases hE : emaLast 200 (bars.map (·.close)) with
        | none => rw [hE] at he; cases he
        | some e =>
          rw [hE] at he
          simp only at he
          exact ⟨e, rfl, of_decide_eq_true he⟩
      · cases hA : atrLast bars 14 with
        | none => rw [hA] at ha; cases ha
        | some a =>
          rw [hA] at ha
          simp only at ha
          exact ⟨a, rfl, of_decide_eq_true ha⟩
    · rintro ⟨-, ⟨e, hE, he⟩, ⟨a, hA, ha⟩⟩
      rw [hE, hA]
      simp only
      exact ⟨decide_eq_true he, decide_eq_true ha⟩

/-! ## C9: constant prices give zero ATR and a regime rejection -/

theorem trAux_const_zero {c : ℚ} (prev : Bar) (bs : List Bar)
    (hp : prev.close = c)
    (h : ∀ b ∈ bs, b.high = c ∧ b.low = c ∧ b.close = c) :
    ∀ x ∈ trAux prev bs, x = 0 := by
  induction bs generalizing prev with
  | nil => intro x hx; cases hx
  | cons b bs ih =>
    intro x hx
    obtain ⟨hbh, hbl, hbc⟩ := h b (List.mem_cons_self _ _)
    simp only [trAux, List.mem_cons] at hx
    rcases hx with rfl | hx
    · simp [trueRange, hbh, hbl, hbc, hp]
    · exact ih b hbc (fun b' hb' => h b' (List.mem_cons_of_mem _ hb')) x hx

theorem trList_const_zero {c : ℚ} (bars : List Bar)
    (h : ∀ b ∈ bars, b.high = c ∧ b.low = c ∧ b.close = c) :
    ∀ x ∈ trList bars, x = 0 := by
  cases bars with
  | nil => intro x hx; cases hx
  | cons b bs =>
    intro x hx
    obtain ⟨hbh, hbl, hbc⟩ := h b (List.mem_cons_self _ _)
    simp only [trList, List.mem_cons] at hx
    rcases hx with rfl | hx
    · rw [hbh, hbl, sub_self]
    · exact trAux_const_zero b bs hbc
        (fun b' hb' => h b' (List.mem_cons_of_mem _ hb')) x hx

/-- C9: on a sequence of bars whose open, high, low and close all equal the
same constant price, ATR(14) at the latest bar is exactly 0 (given ≥ 14
bars), the volatility fraction is 0, and with ≥ 200 bars the regime
classifier rejects the sequence — 0 falls below the 0.005 band floor. -/
theorem c9_const_price_rejected (bars : List Bar) (c : ℚ)
    (hconst : ∀ b ∈ bars,
      b.open_ = c ∧ b.high = c ∧ b.low = c ∧ b.close = c)
    (h14 : 14 ≤ bars.length) :
    atrLast bars 14 = some 0 ∧ volPct bars < 5/1000 ∧
    (200 ≤ bars.length → regimeOk (some bars) = false) := by
  have hzero : ∀ x ∈ trList bars, x = 0 :=
    trList_const_zero bars (fun b hb =>
      ⟨(hconst b hb).2.1, (hconst b hb).2.2.1, (hconst b hb).2.2.2⟩)
  have hatr : atrLast bars 14 = some 0 := by
    rw [atrLast_eq (by norm_num) h14]
    congr 1
    rw [List.sum_eq_zero (fun x hx => hzero x (List.mem_of_mem_drop hx))]
    norm_num
  have hvol : volPct bars = 0 := by
    rw [volPct, hatr]
    simp
  refine ⟨hatr, by rw [hvol]; norm_num, fun h200 => ?_⟩
  rw [Bool.eq_false_iff]
  intro htrue
  obtain ⟨-, -, a, hA, hband, -⟩ := (regimeOk_true_iff bars).mp htrue
  rw [hvol] at hband
  norm_num at hband

/-- C9 witness: the constant 200-bar sequence. -/
theorem c9_const_price_rejected_witness :
    atrLast constBars 14 = some 0 ∧
    regimeOk (some constBars) = false := by
  have h := c9_const_price_rejected constBars 100
    (by intro b hb; rw [List.eq_of_mem_replicate hb]; exact ⟨rfl, rfl, rfl, rfl⟩)
    (by simp [constBars])
  exact ⟨h.1, h.2.2 (by simp [constBars])⟩

/-! ## C1: the volatility band is closed at 0.08 -/

/-- 199 identical bars with an 8-point true range, then a breakout bar
engineered so that ATR(14) = 8.08 and the latest close is 101: the
volatility fraction is exactly 8.08/101 = 0.08. -/
def c1base : Bar :=
  { open_ := 100, high := 108, low := 100, close := 100, volume := 1000 }

def c1last : Bar :=
  { open_ := 101, high := 2728/25, low := 101, close := 101, volume := 1000 }

def c1bars : List Bar := List.replicate 199 c1base ++ [c1last]

/-- C1 counterexample: a 200-bar sequence whose volatility fraction is
exactly 0.08 and which `regime_ok` nevertheless accepts — the band's upper
edge is inclusive (`vol_pct <= 0.08`), not half-open. -/
theorem c1_counterexample :
    volPct c1bars = 8/100 ∧ regimeOk (some c1bars) = true :=
  ⟨by with_unfolding_all rfl, by with_unfolding_all rfl⟩

/-- C1 amended: with at least 200 bars, `regime_ok` returns true only if
the volatility fraction lies in the closed band `[0.005, 0.08]` (both
endpoints admitted). -/
theorem c1_band_inclusive (bars : List Bar)
    (h : regimeOk (some bars) = true) :
    200 ≤ bars.length ∧
    (5/1000:ℚ) ≤ volPct bars ∧ volPct bars ≤ 8/100 := by
  obtain ⟨h200, -, a, -, hb1, hb2⟩ := (regimeOk_true_iff bars).mp h
  exact ⟨h200, hb1, hb2⟩

/-- C1 witness: the amended theorem applied to the 0.08-edge sequence. -/
theorem c1_band_inclusive_witness :
    regimeOk (some c1bars) = true ∧
    ((5/1000:ℚ) ≤ volPct c1bars ∧ volPct c1bars ≤ 8/100) := by
  have hreg : regimeOk (some c1bars) = true := by with_unfolding_all rfl
  exact ⟨hreg, (c1_band_inclusive c1bars hreg).2⟩

/-! ## C10: the clamped denominator, and a tradeable negative close -/

/-- 187 bars at price −1, then 14 flat bars at −1/2, the last of which
carries a 7·10⁻¹⁰ true range: ATR(14) = 5·10⁻¹¹, so against the clamped
denominator 10⁻⁹ the volatility fraction is 0.05 — inside the band — and
the latest close −1/2 + 7·10⁻¹⁰ sits above the EMA-200. -/
def c10a : Bar := { open_ := -1, high := -1, low := -1, close := -1, volume := 1 }

def c10b : Bar :=
  { open_ := -1/2, high := -1/2, low := -1/2, close := -1/2, volume := 1 }

def c10c : Bar :=
  { open_ := -1/2, high := -1/2 + 7/10000000000, low := -1/2,
    close := -1/2 + 7/10000000000, volume := 1 }

def c10bars : List Bar :=
  List.replicate 187 c10a ++ List.replicate 14 c10b ++ [c10c]

/-- C10 counterexample: a sequence whose latest close is negative and
which `regime_ok` still classifies as tradeable — a non-positive close
does not force rejection, because a sufficiently small positive ATR keeps
the clamped volatility fraction inside the band. -/
theorem c10_counterexample :
    lastClose c10bars ≤ 0 ∧ regimeOk (some c10bars) = true := by
  have h : lastClose c10bars = -4999999993/10000000000 := by
    with_unfolding_all rfl
  exact ⟨by rw [h]; norm_num, by with_unfolding_all rfl⟩

/-- C10 amended: the volatility-ratio denominator `max(1e-9, last)` is
always strictly positive — classification is total, with no division by
zero — and equals exactly 1e-9 whenever the latest close is ≤ 0; but a
latest close ≤ 0 does not by itself make the sequence not tradeable. -/
theorem c10_denominator_clamped (bars : List Bar) :
    0 < regimeDenom bars ∧
    (lastClose bars ≤ 0 → regimeDenom bars = 1/1000000000) := by
  refine ⟨lt_of_lt_of_le (by norm_num) (le_max_left _ _), fun h => ?_⟩
  exact max_eq_left (le_trans h (by norm_num))

/-- C10 witness: the amended theorem applied to the negative-close
sequence. -/
theorem c10_denominator_clamped_witness :
    lastClose c10bars ≤ 0 ∧ regimeDenom c10bars = 1/1000000000 := by
  have h : lastClose c10bars = -4999999993/10000000000 := by
    with_unfolding_all rfl
  have hle : lastClose c10bars ≤ 0 := by rw [h]; norm_num
  exact ⟨hle, (c10_denominator_clamped c10bars).2 hle⟩

/-! ## C2: sink failures are caught at the per-instrument boundary -/

/-- A concrete decision record for exercising the scan loop. -/
def c2Row : DecisionRecord :=
  { timestamp := "t", date := "d", ticker := "AAA",
    signals := "flow=1,boyh=1", entry := 100, stop := 97, stop_dist := 3,
    shares := 33, riskDollars := 100 }

/-- An evaluation that produces a row for `AAA` and raises (supplier
failure) for any other ticker. -/
def c2Dt : String → Except String (Option DecisionRecord) :=
  fun t => if t = "AAA" then Except.ok (some c2Row) else Except.error "boom"

/-- A sink whose append always raises. -/
def c2Sink : DecisionRecord → Except String Unit :=
  fun _ => Except.error "disk full"

/-- C2 counterexample: `log_row` sits inside the same per-ticker
`try/except` as `decide_trade`, so a raising sink does NOT propagate out
of the scan: the failed append for `AAA` is caught and reported as an
`ERR` skip exactly like the supplier failure for `BBB`, and the scan
continues through the rest of the universe. -/
theorem c2_counterexample :
    mainScan c2Dt c2Sink ["AAA", "BBB"]
      = [TickerOutcome.errSkip "AAA" "disk full",
         TickerOutcome.errSkip "BBB" "boom"] := rfl

/-- C2 amended: both a sink failure on an accepted decision and a
supplier failure are caught at the per-instrument boundary and reported
with the instrument identifier, and the scan always produces one outcome
per instrument of the universe. -/
theorem c2_sink_error_caught
    (dt : String → Except String (Option DecisionRecord))
    (sink : DecisionRecord → Except String Unit)
    (ts : List String) (t u : String) (r : DecisionRecord) (e f : String)
    (hd : dt t = Except.ok (some r)) (hs : sink r = Except.error e)
    (hu : dt u = Except.error f) :
    processTicker dt sink t = TickerOutcome.errSkip t e ∧
    processTicker dt sink u = TickerOutcome.errSkip u f ∧
    (mainScan dt sink ts).length = ts.length := by
  refine ⟨?_, ?_, by simp [mainScan]⟩
  · simp [processTicker, hd, hs]
  · simp [processTicker, hu]

/-- C2 witness: the amended theorem applied to the concrete scan. -/
theorem c2_sink_error_caught_witness :
    processTicker c2Dt c2Sink "AAA"
      = TickerOutcome.errSkip "AAA" "disk full" ∧
    processTicker c2Dt c2Sink "BBB" = TickerOutcome.errSkip "BBB" "boom" ∧
    (mainScan c2Dt c2Sink ["AAA", "BBB"]).length = 2 :=
  c2_sink_error_caught c2Dt c2Sink ["AAA", "BBB"] "AAA" "BBB" c2Row
    "disk full" "boom" rfl rfl rfl

/-! ## C3: consensus gating and the emitted record's fields -/

/-- 199 two-point-range bars, then a surge bar whose close
`101.000057` needs more than four decimal places: the regime passes, both
detectors can fire, and the record's rounded `entry` differs from the raw
latest close. -/
def c3base : Bar :=
  { open_ := 100, high := 101, low := 99, close := 100, volume := 1000 }

def c3last : Bar :=
  { open_ := 101000057/1000000, high := 101000057/1000000, low := 501/5,
    close := 101000057/1000000, volume := 10000 }

def c3daily1 : Bar :=
  { open_ := 100, high := 201/2, low := 99, close := 100, volume := 1 }

def c3daily2 : Bar :=
  { open_ := 100, high := 102, low := 99, close := 101, volume := 1 }

def c3bars : List Bar := List.replicate 199 c3base ++ [c3last]

def c3daily : List Bar := [c3daily1, c3daily2]

/-- C3 counterexample: on a passing sequence with both detectors true the
emitted record's `entry` field is `round(entry, 4) = 101.0001`, which is
NOT the latest close `101.000057` — the stored entry (and stop) are the
rounded values, not the raw ones. -/
theorem c3_counterexample :
    (decideTrade defaultCfg "X" (some c3bars) (some c3daily) "t" "d").map
        DecisionRecord.entry = some (1010001/10000) ∧
    lastClose c3bars = 101000057/1000000 ∧
    (1010001/10000 : ℚ) ≠ 101000057/1000000 :=
  ⟨by with_unfolding_all rfl, by with_unfolding_all rfl, by norm_num⟩

/-- C3 amended: for a regime-passing sequence with consensus minimum 2 and
the flow detector true — if the breakout detector is false no decision is
produced; if it is true and sizing succeeds, the decision record carries
`signals = "flow=1,boyh=1"`, `entry = round4(latest close)` and
`stop = round4(latest close − stop distance)`. -/
theorem c3_consensus_and_emit (cfg : Config) (bars : List Bar)
    (t nu da : String)
    (hcm : cfg.consensusMin = 2)
    (hreg : regimeOk (some bars) = true)
    (hflow : sigFlow cfg (some bars) = true) :
    (∀ daily, sigBoyh daily bars = false →
        decideTrade cfg t (some bars) daily nu da = none) ∧
    (∀ daily, sigBoyh daily bars = true →
      0 < sharesFor cfg (lastClose bars) (stopDistance cfg bars) →
      stopDistance cfg bars ≠ none →
        (decideTrade cfg t (some bars) daily nu da).map (·.signals)
            = some "flow=1,boyh=1" ∧
        (decideTrade cfg t (some bars) daily nu da).map (·.entry)
            = some (round4 (lastClose bars)) ∧
        (decideTrade cfg t (some bars) daily nu da).map (·.stop)
            = some (round4 (lastClose bars
                - (stopDistance cfg bars).getD 0))) := by
  have h0 : ¬ bars.length = 0 := by
    have := ((regimeOk_true_iff bars).mp hreg).1
    omega
  constructor
  · intro daily hb
    simp only [decideTrade]
    rw [if_neg h0, if_neg (not_not_intro hreg), hflow, hb, hcm]
    norm_num
  · intro daily hb hsh hsd
    simp only [decideTrade]
    rw [if_neg h0, if_neg (not_not_intro hreg), hflow, hb, hcm]
    rw [if_neg (by norm_num :
      ¬ ((if (true = true) then (1:ℤ) else 0)
          + (if (true = true) then (1:ℤ) else 0) < 2))]
    rw [if_neg (by
      rintro (h1 | h2)
      · exact absurd hsh (not_lt.mpr h1)
      · exact hsd h2)]
    exact ⟨rfl, rfl, rfl⟩

/-- C3 witness: the amended theorem applied to the concrete surge
sequence, with a missing daily feed (no decision) and with the concrete
two-day feed (record emitted). -/
theorem c3_consensus_and_emit_witness :
    decideTrade defaultCfg "X" (some c3bars) none "t" "d" = none ∧
    (decideTrade defaultCfg "X" (some c3bars) (some c3daily) "t" "d").map
        (·.signals) = some "flow=1,boyh=1" ∧
    (decideTrade defaultCfg "X" (some c3bars) (some c3daily) "t" "d").map
        (·.stop) = some (round4 (lastClose c3bars
            - (stopDistance defaultCfg c3bars).getD 0)) := by
  have hreg : regimeOk (some c3bars) = true := by with_unfolding_all rfl
  have hflow : sigFlow defaultCfg (some c3bars) = true := by
    with_unfolding_all rfl
  have h := c3_consensus_and_emit defaultCfg c3bars "X" "t" "d" rfl hreg hflow
  have hbT : sigBoyh (some c3daily) c3bars = true := by with_unfolding_all rfl
  have hsh : sharesFor defaultCfg (lastClose c3bars)
      (stopDistance defaultCfg c3bars) = 34 := by with_unfolding_all rfl
  have hsd : stopDistance defaultCfg c3bars = some (81000171/28000000) := by
    with_unfolding_all rfl
  have h2 := h.2 (some c3daily) hbT (by rw [hsh]; norm_num)
    (by rw [hsd]; simp)
  exact ⟨h.1 none rfl, h2.1, h2.2.2⟩
